/-
  Verification of aegis/database.py: a dual-backend (Postgres-style and
  MySQL-style) database access layer with per-thread connection caching,
  idle-connection recycling, a Row mapping type, a mini-ORM column engine
  (kva_split / insert_columns / update_columns) and a schema-migration
  ledger (SqlDiff).

  The Python module is shallowly embedded: driver-level effects (an executed
  cursor) are represented by the observable data the code reads back from the
  driver (rowcount, lastrowid, fetched result rows); pure SQL-text building
  and dispatch logic is translated directly.
-/
import Mathlib

/-- The observable outcome of a driver-level statement execution, i.e. the
fields of a DB-API cursor that `database.py` reads after `cursor.execute`:
the affected-row count, the driver-reported last-inserted id, and the
fetchable result rows (each a list of column values). -/
structure Cursor (α : Type) where
  rowcount : Int
  lastrowid : Int
  results : List (List α)
deriving DecidableEq, Repr

/-- A Python-level error surfaced by the embedded fragments. -/
inductive PyError where
  | keyError (name : String)
  | attributeError (name : String)
  | typeError (msg : String)
  | indexError (msg : String)
deriving DecidableEq, Repr

/-- Return value of `execute`: either an identifier-like value or a row
count, mirroring the dual-return convention of the Python code. -/
inductive ExecValue (α : Type) where
  | id (v : Option α)
  | count (n : Int)
deriving DecidableEq, Repr

/-- `cursor.fetchone()`: the first result row if any, else Python `None`. -/
def Cursor.fetchone (cur : Cursor α) : Option (List α) :=
  cur.results.head?

/-- Whether the second character list starts the first one. -/
def startswithChars : List Char → List Char → Bool
  | _, [] => true
  | [], _ :: _ => false
  | a :: as, b :: bs => a == b && startswithChars as bs

/-- Python `q.startswith(p)` on strings. -/
def pyStartswith (q p : String) : Bool :=
  startswithChars q.data p.data

namespace PostgresConnection

/-- `PostgresConnection.execute_lastrowid`: runs the statement and, when
`cursor.rowcount > 0`, returns `cursor.fetchone()[0]`; otherwise falls off
the end of the function (Python `None`).  Subscripting `fetchone()` when it
returned `None`, or an empty row, raises. -/
def execute_lastrowid (cur : Cursor α) : Except PyError (Option α) :=
  if cur.rowcount > 0 then
    match cur.fetchone with
    | none => .error (.typeError "NoneType object is not subscriptable")
    | some row =>
      match row.head? with
      | none => .error (.indexError "tuple index out of range")
      | some v => .ok (some v)
  else
    .ok none

/-- `PostgresConnection.execute_rowcount`: returns `cursor.rowcount`. -/
def execute_rowcount (cur : Cursor α) : Int :=
  cur.rowcount

/-- `PostgresConnection.execute`: dispatches on `query.startswith('INSERT')`
between the lastrowid path and the rowcount path. -/
def execute (query : String) (cur : Cursor α) : Except PyError (ExecValue α) :=
  if pyStartswith query "INSERT" then
    (execute_lastrowid cur).map ExecValue.id
  else
    .ok (.count (execute_rowcount cur))

/-- `PostgresConnection.get`: wraps `query`; `None` on no rows, error on
more than one row, else the single row. -/
def get (rows : List α) : Except String (Option α) :=
  if rows.length = 0 then .ok none
  else if rows.length > 1 then .error "Multiple rows returned for Database.get() query"
  else .ok rows.head?

end PostgresConnection

namespace MysqlConnection

/-- `MysqlConnection.execute_lastrowid`: returns `cursor.lastrowid`. -/
def execute_lastrowid (cur : Cursor α) : Int :=
  cur.lastrowid

/-- `MysqlConnection.execute_rowcount`: returns `cursor.rowcount`. -/
def execute_rowcount (cur : Cursor α) : Int :=
  cur.rowcount

/-- `MysqlConnection.execute`: unconditionally delegates to
`execute_lastrowid` ("for historical compatibility execute() must return
lastrowid"); the query text is never inspected. -/
def execute (_query : String) (cur : Cursor α) : Int :=
  execute_lastrowid cur

/-- `MysqlConnection.get`: wraps `query`; `None` on no rows, error on more
than one row; on exactly one row `r`, applies the `cls` keyword argument to
`r` when `r` is truthy and `cls` was supplied. -/
def get (rows : List α) (truthy : α → Bool) (cls : Option (α → α)) :
    Except String (Option α) :=
  if rows.length = 0 then .ok none
  else if rows.length > 1 then .error "Multiple rows returned for Database.get() query"
  else
    match rows.head? with
    | none => .ok none
    | some row =>
      if truthy row then
        match cls with
        | some f => .ok (some (f row))
        | none => .ok (some row)
      else .ok (some row)

end MysqlConnection

/-- Mutable connection state read by `_ensure_connected`: the driver handle
(`self._db`, `none` when unconnected; a `Nat` identifies the concrete handle
object), the last-use timestamp and the configured idle timeout. -/
structure ConnState where
  db : Option Nat
  last_use_time : Nat
  max_idle_time : Nat
deriving DecidableEq, Repr

/-- `reconnect`: closes any existing handle and installs a fresh one
(`fresh` names the new driver handle). -/
def ConnState.reconnect (fresh : Nat) (s : ConnState) : ConnState :=
  { s with db := some fresh }

/-- `PostgresConnection._ensure_connected` at current time `now`: reconnect
when the handle is `None` or `now - last_use_time > max_idle_time`, then
unconditionally set `last_use_time = now`. -/
def PostgresConnection.ensure_connected (now fresh : Nat) (s : ConnState) : ConnState :=
  let s1 := if s.db.isNone || decide (now - s.last_use_time > s.max_idle_time)
    then s.reconnect fresh else s
  { s1 with last_use_time := now }

/-- `MysqlConnection._ensure_connected` at current time `now`: when the
handle is `None` or `now - last_use_time > max_idle_time`, set
`last_use_time = now` and reconnect; otherwise leave the state untouched. -/
def MysqlConnection.ensure_connected (now fresh : Nat) (s : ConnState) : ConnState :=
  if s.db.isNone || decide (now - s.last_use_time > s.max_idle_time)
    then ({ s with last_use_time := now }).reconnect fresh
    else s

/-- Which backend driver a connection object belongs to. -/
inductive Backend where
  | postgres
  | mysql
deriving DecidableEq, Repr

/-- A cached connection object as the registry sees it: its backend kind and
the schema it was opened against. -/
structure Conn where
  kind : Backend
  schema : String
deriving DecidableEq, Repr

/-- The option values `db` consults (`options.pg_database`,
`options.mysql_schema`). -/
structure DbOptions where
  pg_database : String
  mysql_schema : String
deriving DecidableEq, Repr

/-- `PostgresConnection.connect()` as observed by the registry: a connection
to `options.pg_database`. -/
def connectPostgres (opts : DbOptions) : Conn :=
  ⟨.postgres, opts.pg_database⟩

/-- `MysqlConnection.connect()` as observed by the registry: a connection to
`options.mysql_schema`. -/
def connectMysql (opts : DbOptions) : Conn :=
  ⟨.mysql, opts.mysql_schema⟩

/-- The registry lookup `db(use_schema=None)`.  `dbconns.databases` is the
thread-local cache, modelled as an insertion-ordered association list.  For
each available driver whose schema key is missing from the cache, a fresh
connection is inserted and `use_schema` is overwritten with that schema.
Then, if `use_schema` is still unset and exactly one schema is cached, that
schema is chosen.  Finally `dbconns.databases[use_schema]` is returned;
a missing (or `None`) key raises `KeyError`. -/
def db (pgsql_available mysql_available : Bool) (opts : DbOptions)
    (databases : List (String × Conn)) (use_schema : Option String) :
    Except PyError (List (String × Conn) × Conn) :=
  let st1 :=
    if pgsql_available && !(databases.any (fun kv => kv.1 == opts.pg_database)) then
      (databases ++ [(opts.pg_database, connectPostgres opts)], some opts.pg_database)
    else (databases, use_schema)
  let st2 :=
    if mysql_available && !(st1.1.any (fun kv => kv.1 == opts.mysql_schema)) then
      (st1.1 ++ [(opts.mysql_schema, connectMysql opts)], some opts.mysql_schema)
    else st1
  let use3 :=
    if st2.2.isNone && st2.1.length == 1 then (st2.1.head?).map (fun kv => kv.1)
    else st2.2
  match use3 with
  | none => .error (.keyError "None")
  | some s =>
    match st2.1.find? (fun kv => kv.1 == s) with
    | some kv => .ok (st2.1, kv.2)
    | none => .error (.keyError s)

/-- A changeset value: either a `Literal` (a `str` subclass marking raw SQL
text such as `NOW()`) or a plain value to be parameter-bound. -/
inductive ColValue (α : Type) where
  | literal (s : String)
  | plain (v : α)
deriving DecidableEq, Repr

/-- `Row.kva_split(columns)`: iterates the changeset in insertion order;
every key goes to `keys`; a `Literal` value goes verbatim into `values`; any
other value contributes a `'%s'` placeholder to `values` and the value
itself to `args`.  The changeset (a Python dict) is modelled as the
insertion-ordered list of its items. -/
def kva_split : List (String × ColValue α) → List String × List String × List α
  | [] => ([], [], [])
  | (key, value) :: rest =>
    let r := kva_split rest
    match value with
    | .literal s => (key :: r.1, s :: r.2.1, r.2.2)
    | .plain v => (key :: r.1, "%s" :: r.2.1, v :: r.2.2)

/-- `Row.insert_columns` with the default `sql_txt` template: the SQL text
produced by `sql_txt % ...` after `" RETURNING " + cls.id_column` has been
appended to the template exactly when the active connection is a
`PostgresConnection`, paired with the bound values from `kva_split`. -/
def insert_columns (backend : Backend) (db_table id_column : String)
    (columns : List (String × ColValue α)) : String × List α :=
  let r := kva_split columns
  let base := "INSERT INTO " ++ db_table ++ " (" ++ String.intercalate ", " r.1 ++
    ") VALUES (" ++ String.intercalate ", " r.2.1 ++ ")"
  match backend with
  | .postgres => (base ++ " RETURNING " ++ id_column, r.2.2)
  | .mysql => (base, r.2.2)

/-- `Row.update_columns(columns, where)`: when the changeset is empty, logs
"Nothing to update. Skipping query" and returns `None` without building or
executing any statement; otherwise builds the UPDATE statement and the
combined bound values.  The result pairs the emitted log messages with the
optional statement handed to `execute_rowcount`. -/
def update_columns (db_table : String) (columns where_cols : List (String × ColValue α)) :
    List String × Option (String × List α) :=
  if columns.isEmpty then
    (["Nothing to update. Skipping query"], none)
  else
    let s := kva_split columns
    let set_clause := String.intercalate ", "
      ((s.1.zip s.2.1).map (fun kv => kv.1 ++ "=" ++ kv.2))
    let w := kva_split where_cols
    let where_clause := String.intercalate " AND "
      ((w.1.zip w.2.1).map (fun kv => kv.1 ++ "=" ++ kv.2))
    ([], some ("UPDATE " ++ db_table ++ " SET " ++ set_clause ++ " WHERE " ++ where_clause,
      s.2.2 ++ w.2.2))

/-- Python `row[name]` on a `Row` (a dict): the stored value, or `KeyError`.
The dict is modelled as an association list with distinct keys; lookup finds
the first matching key. -/
def Row.getitem (row : List (String × α)) (name : String) : Except PyError α :=
  match row.find? (fun kv => kv.1 == name) with
  | some kv => .ok kv.2
  | none => .error (.keyError name)

/-- `Row.__getattr__(name)`: `return self[name]`, turning a `KeyError` into
`AttributeError(name)`. -/
def Row.getattr (row : List (String × α)) (name : String) : Except PyError α :=
  match Row.getitem row name with
  | .ok v => .ok v
  | .error _ => .error (.attributeError name)

/-- A row of the `sql_diff` ledger table. -/
structure SqlDiffRow where
  sql_diff_id : Nat
  sql_diff_name : String
  applied_dttm : Option Nat
deriving DecidableEq, Repr

/-- `SUBSTRING(sql_diff_name from 5 for 3)`: SQL's 1-based substring, i.e.
the three characters starting at position 5 (shorter when the name runs
out). -/
def unappliedKey (r : SqlDiffRow) : String :=
  (r.sql_diff_name.drop 4).take 3

/-- Lexicographic less-or-equal on character lists by code point, modelling
the database's binary string collation for `ORDER BY ... ASC`. -/
def charListLe : List Char → List Char → Bool
  | [], _ => true
  | _ :: _, [] => false
  | a :: as, b :: bs =>
    if a.toNat < b.toNat then true
    else if b.toNat < a.toNat then false
    else charListLe as bs

/-- String comparison used by `ORDER BY ... ASC`. -/
def strLe (a b : String) : Bool :=
  charListLe a.data b.data

/-- `SqlDiff.scan_unapplied()`: the semantics of
`SELECT * FROM sql_diff WHERE applied_dttm IS NULL ORDER BY
SUBSTRING(sql_diff_name from 5 for 3) ASC` over a ledger table state:
keep the rows with `applied_dttm` NULL and sort them ascending by the
substring key. -/
def scan_unapplied (rows : List SqlDiffRow) : List SqlDiffRow :=
  List.insertionSort (fun a b => strLe (unappliedKey a) (unappliedKey b) = true)
    (rows.filter (fun r => r.applied_dttm.isNone))

/-- Unapplied ledger entry named "0010_a". -/
def exRow1 : SqlDiffRow :=
  ⟨1, "0010_a", none⟩

/-- Unapplied ledger entry named "0005_b". -/
def exRow2 : SqlDiffRow :=
  ⟨2, "0005_b", none⟩

/-- Unapplied ledger entry named "0020_c". -/
def exRow3 : SqlDiffRow :=
  ⟨3, "0020_c", none⟩

/-- `charListLe` is total. -/
theorem charListLe_total : ∀ as bs : List Char, charListLe as bs = true ∨ charListLe bs as = true
  | [], _ => Or.inl rfl
  | _ :: _, [] => Or.inr rfl
  | a :: as, b :: bs => by
    rcases Nat.lt_trichotomy a.toNat b.toNat with h | h | h
    · left
      simp [charListLe, h]
    · rcases charListLe_total as bs with ih | ih
      · left
        simp [charListLe, h, Nat.lt_irrefl, ih]
      · right
        simp [charListLe, h, Nat.lt_irrefl, ih]
    · right
      simp [charListLe, h]

/-- `charListLe` is transitive. -/
theorem charListLe_trans : ∀ as bs cs : List Char,
    charListLe as bs = true → charListLe bs cs = true → charListLe as cs = true
  | [], _, _, _, _ => rfl
  | _ :: _, [], _, h1, _ => by simp [charListLe] at h1
  | _ :: _, _ :: _, [], _, h2 => by simp [charListLe] at h2
  | a :: as, b :: bs, c :: cs, h1, h2 => by
    simp only [charListLe] at h1 h2 ⊢
    split_ifs at h1 h2 ⊢ <;>
      first
        | rfl
        | (exfalso; omega)
        | simp at h1
        | simp at h2
        | exact charListLe_trans as bs cs h1 h2

/-- C1 counterexample: on the MySQL-style connection, `execute` of a
non-INSERT statement returns the driver-reported last-inserted id (here 7),
not the affected-row count (here 3), contradicting the claim that both
backends return the row count for non-INSERT statements. -/
theorem mysql_execute_ignores_statement_shape :
    MysqlConnection.execute "UPDATE t SET a=1" (⟨3, 7, []⟩ : Cursor Nat) ≠
      MysqlConnection.execute_rowcount (⟨3, 7, []⟩ : Cursor Nat) := by
  decide

/-- C1 (amended): on the Postgres-style connection `execute` dispatches on
`query.startswith('INSERT')` — INSERT-shaped statements return the newly
generated identifier (the first column of the first fetched row when the
affected-row count is positive) and all others return the affected-row
count; the MySQL-style connection's `execute` always returns the
driver-reported last-inserted id regardless of statement shape. -/
theorem execute_dispatch (q : String) (cur : Cursor α) (v : α) (vs : List α) :
    (pyStartswith q "INSERT" = true → 0 < cur.rowcount → cur.results.head? = some (v :: vs) →
      PostgresConnection.execute q cur = .ok (.id (some v))) ∧
    (pyStartswith q "INSERT" = false →
      PostgresConnection.execute q cur = .ok (.count cur.rowcount)) ∧
    MysqlConnection.execute q cur = cur.lastrowid := by
  refine ⟨fun hq hc hr => ?_, fun hq => ?_, rfl⟩
  · simp [PostgresConnection.execute, hq, PostgresConnection.execute_lastrowid,
      Cursor.fetchone, hr, hc, Except.map]
  · simp [PostgresConnection.execute, hq, PostgresConnection.execute_rowcount]

/-- C1 witness: a concrete INSERT on the Postgres-style connection returns
the generated id 42. -/
theorem execute_dispatch_witness :
    PostgresConnection.execute "INSERT INTO t (a) VALUES (%s)" (⟨1, 0, [[42]]⟩ : Cursor Nat) =
      .ok (.id (some 42)) :=
  (execute_dispatch "INSERT INTO t (a) VALUES (%s)" ⟨1, 0, [[42]]⟩ 42 []).1
    (by decide) (by decide) (by decide)

/-- C2 counterexample: with unapplied ledger entries named "0010_a",
"0005_b", "0020_c", `scan_unapplied` does not return them in the order
"0005_b", "0010_a", "0020_c" claimed by the spec example: the position 5-7
ordering tokens of these names are "_a", "_b", "_c", so "0010_a" sorts
first. -/
theorem scan_unapplied_not_numeric_prefix_order :
    (scan_unapplied [exRow1, exRow2, exRow3]).map (fun r => r.sql_diff_name) ≠
      ["0005_b", "0010_a", "0020_c"] := by
  decide

/-- C2 (amended): `scan_unapplied` returns exactly the unapplied ledger
entries, ordered ascending by the three-character token at (1-based)
positions 5-7 of the entry name; for the entries named "0010_a", "0005_b",
"0020_c" (whose position 5-7 tokens are "_a", "_b", "_c") the returned
order is "0010_a", "0005_b", "0020_c". -/
theorem scan_unapplied_sorted_by_key (rows : List SqlDiffRow) :
    (scan_unapplied rows).Sorted (fun a b => strLe (unappliedKey a) (unappliedKey b) = true) ∧
    (scan_unapplied rows).Perm (rows.filter (fun r => r.applied_dttm.isNone)) ∧
    (scan_unapplied [exRow1, exRow2, exRow3]).map (fun r => r.sql_diff_name) =
      ["0010_a", "0005_b", "0020_c"] := by
  haveI : IsTotal SqlDiffRow (fun a b => strLe (unappliedKey a) (unappliedKey b) = true) :=
    ⟨fun _ _ => charListLe_total _ _⟩
  haveI : IsTrans SqlDiffRow (fun a b => strLe (unappliedKey a) (unappliedKey b) = true) :=
    ⟨fun _ _ _ => charListLe_trans _ _ _⟩
  exact ⟨List.sorted_insertionSort _ _, List.perm_insertionSort _ _, by decide⟩

/-- C3 counterexample: on the MySQL-style connection, `_ensure_connected`
on a live handle below the idle timeout does not update the last-use
timestamp (it stays 0 instead of becoming the current time 5), contradicting
the claim that both backends always update it. -/
theorem mysql_ensure_connected_keeps_last_use :
    (MysqlConnection.ensure_connected 5 2 ⟨some 1, 0, 10⟩).last_use_time ≠ 5 := by
  decide

/-- C3 (amended): both backends reconnect exactly when the handle is null or
the idle time exceeds the timeout; below the timeout the same handle is
reused; the Postgres-style connection always updates the last-use timestamp
afterward, while the MySQL-style connection updates it only on the reconnect
path and leaves the state untouched when the connection is reused. -/
theorem ensure_connected_behavior (now fresh : Nat) (s : ConnState) :
    ((s.db = none ∨ now - s.last_use_time > s.max_idle_time) →
      PostgresConnection.ensure_connected now fresh s = ⟨some fresh, now, s.max_idle_time⟩ ∧
      MysqlConnection.ensure_connected now fresh s = ⟨some fresh, now, s.max_idle_time⟩) ∧
    (s.db ≠ none → now - s.last_use_time ≤ s.max_idle_time →
      PostgresConnection.ensure_connected now fresh s = { s with last_use_time := now } ∧
      MysqlConnection.ensure_connected now fresh s = s) := by
  constructor
  · intro h
    have hb : (s.db.isNone || decide (now - s.last_use_time > s.max_idle_time)) = true := by
      rcases h with h | h
      · simp [h]
      · simp [h]
    constructor
    · simp [PostgresConnection.ensure_connected, hb, ConnState.reconnect]
    · simp [MysqlConnection.ensure_connected, hb, ConnState.reconnect]
  · intro hd hidle
    have hb : (s.db.isNone || decide (now - s.last_use_time > s.max_idle_time)) = false := by
      have h1 : s.db.isNone = false := by
        cases hdb : s.db
        · exact absurd hdb hd
        · rfl
      have h2 : ¬ (now - s.last_use_time > s.max_idle_time) := by omega
      simp [h1, h2]
    constructor
    · simp [PostgresConnection.ensure_connected, hb]
    · simp [MysqlConnection.ensure_connected, hb]

/-- C3 witness: a concrete live connection below the timeout — the Postgres
state only advances its timestamp, the MySQL state is reused unchanged; a
concrete idle connection is replaced on both. -/
theorem ensure_connected_behavior_witness :
    (PostgresConnection.ensure_connected 5 2 ⟨some 1, 0, 10⟩ = ⟨some 1, 5, 10⟩ ∧
      MysqlConnection.ensure_connected 5 2 ⟨some 1, 0, 10⟩ = ⟨some 1, 0, 10⟩) ∧
    (PostgresConnection.ensure_connected 20 2 ⟨some 1, 0, 10⟩ = ⟨some 2, 20, 10⟩ ∧
      MysqlConnection.ensure_connected 20 2 ⟨some 1, 0, 10⟩ = ⟨some 2, 20, 10⟩) :=
  ⟨(ensure_connected_behavior 5 2 ⟨some 1, 0, 10⟩).2 (by decide) (by decide),
   (ensure_connected_behavior 20 2 ⟨some 1, 0, 10⟩).1 (by decide)⟩

/-- C4 counterexample: `db` with no schema argument and an empty cache does
not fail when both drivers are available — it auto-connects both schemas and
silently returns the MySQL connection, even though zero schemas were cached
at entry and two are cached at lookup time. -/
theorem db_autoconnect_overrides_ambiguity :
    db true true ⟨"pgdb", "mydb"⟩ [] none =
      .ok ([("pgdb", connectPostgres ⟨"pgdb", "mydb"⟩), ("mydb", connectMysql ⟨"pgdb", "mydb"⟩)],
        connectMysql ⟨"pgdb", "mydb"⟩) := by
  rfl

/-- C4 (amended): when `db` is called with no schema argument and no driver
auto-connects during the call (here: neither driver available), it returns
the single cached connection if exactly one schema is cached and otherwise
fails with a `KeyError` (no AmbiguousSchemaError class exists); when both
drivers are available and uncached, it instead auto-connects both and
silently uses the most recently connected schema (the MySQL one). -/
theorem db_default_schema_resolution (opts : DbOptions) (k : String) (c : Conn)
    (cache : List (String × Conn)) :
    (db false false opts [(k, c)] none = .ok ([(k, c)], c)) ∧
    (cache.length ≠ 1 → db false false opts cache none = .error (.keyError "None")) ∧
    (opts.pg_database ≠ opts.mysql_schema → db true true opts [] none =
      .ok ([(opts.pg_database, connectPostgres opts), (opts.mysql_schema, connectMysql opts)],
        connectMysql opts)) := by
  refine ⟨?_, fun hlen => ?_, fun hne => ?_⟩
  · simp [db]
  · have h1 : (cache.length == 1) = false := by
      simp [hlen]
    simp [db, h1]
  · have h2 : (opts.pg_database == opts.mysql_schema) = false := by
      simp [hne]
    simp [db, h2]

/-- C4 witness: concrete instances — one cached schema "alpha" is returned;
two cached schemas with no schema argument fail with KeyError; both drivers
available on an empty cache silently yield the MySQL connection. -/
theorem db_default_schema_resolution_witness :
    db false false ⟨"pgdb", "mydb"⟩
        [("alpha", ⟨.postgres, "alpha"⟩), ("beta", ⟨.mysql, "beta"⟩)] none =
      .error (.keyError "None") ∧
    db true true ⟨"pgdb", "mydb"⟩ [] none =
      .ok ([("pgdb", ⟨.postgres, "pgdb"⟩), ("mydb", ⟨.mysql, "mydb"⟩)], ⟨.mysql, "mydb"⟩) :=
  ⟨(db_default_schema_resolution ⟨"pgdb", "mydb"⟩ "x" ⟨.postgres, "x"⟩
      [("alpha", ⟨.postgres, "alpha"⟩), ("beta", ⟨.mysql, "beta"⟩)]).2.1 (by decide),
   (db_default_schema_resolution ⟨"pgdb", "mydb"⟩ "x" ⟨.postgres, "x"⟩ []).2.2 (by decide)⟩

/-- C5: `get` returns `None` when the underlying `query` yields zero rows,
the single row when it yields exactly one, and fails with the
multiple-rows error when it yields more than one, on both the
Postgres-style and the MySQL-style connection (default row class). -/
theorem get_row_multiplicity (rows : List α) (truthy : α → Bool) :
    (rows = [] →
      PostgresConnection.get rows = .ok none ∧
      MysqlConnection.get rows truthy none = .ok none) ∧
    (∀ r, rows = [r] →
      PostgresConnection.get rows = .ok (some r) ∧
      MysqlConnection.get rows truthy none = .ok (some r)) ∧
    (1 < rows.length →
      PostgresConnection.get rows = .error "Multiple rows returned for Database.get() query" ∧
      MysqlConnection.get rows truthy none = .error "Multiple rows returned for Database.get() query") := by
  refine ⟨fun h => ?_, fun r h => ?_, fun h => ?_⟩
  · subst h
    exact ⟨rfl, rfl⟩
  · subst h
    constructor
    · simp [PostgresConnection.get]
    · simp [MysqlConnection.get]
  · have h0 : ¬ rows.length = 0 := by omega
    constructor
    · simp [PostgresConnection.get, h0, h]
    · simp [MysqlConnection.get, h0, h]

/-- C5 witness: concrete row lists of length zero, one and two. -/
theorem get_row_multiplicity_witness :
    PostgresConnection.get ([] : List Nat) = .ok none ∧
    PostgresConnection.get [7] = .ok (some 7) ∧
    MysqlConnection.get [7] (fun _ => true) none = .ok (some 7) ∧
    MysqlConnection.get [1, 2] (fun _ => true) none =
      .error "Multiple rows returned for Database.get() query" :=
  ⟨((get_row_multiplicity [] (fun _ => true)).1 rfl).1,
   ((get_row_multiplicity [7] (fun _ => true)).2.1 7 rfl).1,
   ((get_row_multiplicity [7] (fun _ => true)).2.1 7 rfl).2,
   ((get_row_multiplicity [1, 2] (fun _ => true)).2.2 (by decide)).2⟩

/-- C6: `kva_split` iterates the changeset in insertion order: the keys are
the changeset keys in order, each `Literal` value appears verbatim in the
fragment list and contributes no bound value, every other value contributes
a '%s' fragment and its value to the bound list in order, and (when no
literal's text is itself '%s') the number of '%s' fragments equals the
number of bound values. -/
theorem kva_split_alignment (columns : List (String × ColValue α)) :
    (kva_split columns).1 = columns.map (fun kv => kv.1) ∧
    (kva_split columns).2.1 = columns.map (fun kv =>
      match kv.2 with
      | .literal s => s
      | .plain _ => "%s") ∧
    (kva_split columns).2.2 = columns.filterMap (fun kv =>
      match kv.2 with
      | .literal _ => none
      | .plain v => some v) ∧
    ((∀ kv ∈ columns, kv.2 ≠ ColValue.literal "%s") →
      (kva_split columns).2.1.countP (fun v => v == "%s") = (kva_split columns).2.2.length) := by
  induction columns with
  | nil =>
    exact ⟨rfl, rfl, rfl, fun _ => rfl⟩
  | cons kv rest ih =>
    obtain ⟨k, v⟩ := kv
    obtain ⟨ih1, ih2, ih3, ih4⟩ := ih
    cases v with
    | literal s =>
      refine ⟨by simp [kva_split, ih1], by simp [kva_split, ih2], by simp [kva_split, ih3],
        fun h => ?_⟩
      have hs : ¬ (s == "%s") = true := by
        have := h (k, ColValue.literal s) (List.mem_cons_self _ _)
        simp only [ne_eq, ColValue.literal.injEq] at this
        simp [this]
      have hrest := ih4 (fun kv hkv => h kv (List.mem_cons_of_mem _ hkv))
      simp [kva_split, List.countP_cons, hs, hrest]
    | plain a =>
      refine ⟨by simp [kva_split, ih1], by simp [kva_split, ih2], by simp [kva_split, ih3],
        fun h => ?_⟩
      have hrest := ih4 (fun kv hkv => h kv (List.mem_cons_of_mem _ hkv))
      simp [kva_split, List.countP_cons, hrest]

/-- C6 witness: a changeset with a NOW() literal and one plain value has one
'%s' fragment and one bound value. -/
theorem kva_split_alignment_witness :
    (kva_split [("updated_at", ColValue.literal "NOW()"),
      ("name", ColValue.plain (3 : Int))]).2.1.countP (fun v => v == "%s") =
    (kva_split [("updated_at", ColValue.literal "NOW()"),
      ("name", ColValue.plain (3 : Int))]).2.2.length :=
  (kva_split_alignment [("updated_at", ColValue.literal "NOW()"),
    ("name", ColValue.plain (3 : Int))]).2.2.2 (by decide)

/-- C7: `insert_columns` appends a ' RETURNING <id_column>' clause to the
composed INSERT statement exactly when the active connection is the
Postgres-style backend — the Postgres SQL text is the MySQL SQL text plus
that clause, the bound values coincide — and on the MySQL-style backend the
generated identifier comes from the driver-reported last-inserted id, since
its `execute` returns `cursor.lastrowid`. -/
theorem insert_columns_returning_clause (db_table id_column : String)
    (columns : List (String × ColValue α)) (q : String) (cur : Cursor β) :
    (insert_columns .postgres db_table id_column columns).1 =
      (insert_columns .mysql db_table id_column columns).1 ++ " RETURNING " ++ id_column ∧
    (insert_columns .postgres db_table id_column columns).2 =
      (insert_columns .mysql db_table id_column columns).2 ∧
    MysqlConnection.execute q cur = cur.lastrowid := by
  refine ⟨?_, ?_, rfl⟩ <;> simp [insert_columns]

/-- C8: `update_columns` with an empty changeset performs no statement
execution: it logs the skip and returns `None` instead of an UPDATE
statement, for every table name and where-clause mapping. -/
theorem update_columns_empty_changeset (db_table : String)
    (where_cols : List (String × ColValue α)) :
    update_columns db_table [] where_cols = (["Nothing to update. Skipping query"], none) := by
  simp [update_columns]

/-- C9: attribute-style access on a `Row` returns the same value as
key-style access when the column is present, and raises `AttributeError`
(never `KeyError`) when the column is absent. -/
theorem row_getattr_matches_getitem (row : List (String × α)) (name : String) :
    (∀ v, Row.getitem row name = .ok v → Row.getattr row name = .ok v) ∧
    (Row.getitem row name = .error (.keyError name) →
      Row.getattr row name = .error (.attributeError name)) ∧
    (∀ e, Row.getattr row name = .error e → e = .attributeError name) := by
  refine ⟨fun v h => ?_, fun h => ?_, fun e h => ?_⟩
  · simp [Row.getattr, h]
  · simp [Row.getattr, h]
  · unfold Row.getattr at h
    cases hg : Row.getitem row name with
    | ok v =>
      rw [hg] at h
      exact absurd h (by simp)
    | error e2 =>
      rw [hg] at h
      simp at h
      exact h.symm

/-- C9 witness: on the concrete row {"a": 1}, attribute access to "a"
matches key access and attribute access to "b" raises AttributeError. -/
theorem row_getattr_matches_getitem_witness :
    Row.getattr [("a", 1)] "a" = .ok 1 ∧
    Row.getattr [("a", 1)] "b" = .error (.attributeError "b") :=
  ⟨(row_getattr_matches_getitem [("a", 1)] "a").1 1 rfl,
   (row_getattr_matches_getitem [("a", 1)] "b").2.1 rfl⟩

/-- C10: on the Postgres-style connection, `execute_lastrowid` returns the
first column of the first fetched result row when the statement's
affected-row count is positive, and `None` when the affected-row count is
zero. -/
theorem pg_execute_lastrowid_spec (cur : Cursor α) (v : α) (vs : List α)
    (rest : List (List α)) :
    (cur.results = (v :: vs) :: rest → 0 < cur.rowcount →
      PostgresConnection.execute_lastrowid cur = .ok (some v)) ∧
    (cur.rowcount = 0 → PostgresConnection.execute_lastrowid cur = .ok none) := by
  refine ⟨fun hr hc => ?_, fun hc => ?_⟩
  · simp [PostgresConnection.execute_lastrowid, Cursor.fetchone, hr, hc]
  · simp [PostgresConnection.execute_lastrowid, hc]

/-- C10 witness: a concrete cursor with one affected row returning [[9]]
yields 9; a concrete cursor with zero affected rows yields None. -/
theorem pg_execute_lastrowid_spec_witness :
    PostgresConnection.execute_lastrowid (⟨1, 0, [[9]]⟩ : Cursor Nat) = .ok (some 9) ∧
    PostgresConnection.execute_lastrowid (⟨0, 0, []⟩ : Cursor Nat) = .ok none :=
  ⟨(pg_execute_lastrowid_spec ⟨1, 0, [[9]]⟩ 9 [] []).1 rfl (by decide),
   (pg_execute_lastrowid_spec ⟨0, 0, []⟩ 9 [] []).2 rfl⟩
